import Mathlib

/-!
Verification of the DiscountMate service (`app/main.py`, `app/model.py`,
`app/metrics.py`) as a shallow embedding in Lean 4.

Conventions of the embedding:
* Python JSON values arriving in a request body are modelled by `PyVal`;
  Python numbers (both `int` and `float`) are modelled over `ℤ`/`ℚ`.
* The builtin coercions `float(...)`, `int(...)`, `str(...)` used by the
  handler are modelled by `pyToFloat`, `pyToInt`, `pyStr`; the fallible ones
  return `Option`.
* The request body (a JSON object, i.e. a Python `dict`) is an association
  list `Payload`; `dict.get(key, default)` is `fieldOr`.
* The Prometheus instruments of `app/metrics.py` are modelled as a trace
  state `Metrics`: the `REQUESTS` counter as the list of label triples of
  its increments, `ERRORS` as a natural number, and the `LATENCY` histogram
  as the list of observed durations.
* Handlers are state-passing functions `Metrics → ... → Result × Metrics`;
  the wall clock read by `time.time()` is passed in as explicit rational
  timestamps `t0` (entry) and `t1` (at the `finally` block).
* The regression tree fitted by scikit-learn inside `DiscountModel.__init__`
  is an external floating-point computation; it is modelled as an abstract
  feature function `tree : ℚ → ℚ → ℚ → ℚ` carried by the `DiscountModel`
  structure, while `DiscountModel.predict` (tier lookup and clipping) is
  embedded faithfully from `app/model.py`.
-/

/-- A Python value as decoded from a JSON request body: `int`, `float`
(modelled as a rational), `str`, `bool`, `None`, or a collection
(JSON array / object, on which numeric coercion raises `TypeError`). -/
inductive PyVal where
  | int (n : ℤ)
  | float (q : ℚ)
  | str (s : String)
  | bool (b : Bool)
  | none
  | coll
deriving DecidableEq

/-- Value of a decimal digit string, most significant first. -/
def digitsToNat (cs : List Char) : ℕ :=
  cs.foldl (fun a c => a * 10 + (c.toNat - 48)) 0

/-- Decimal number body accepted by Python `float(...)`: digits, optionally
with a decimal point and fractional digits (at least one digit overall). -/
def parseDec (cs : List Char) : Option ℚ :=
  let ip := cs.takeWhile Char.isDigit
  match cs.dropWhile Char.isDigit with
  | [] => if ip.isEmpty then Option.none else some (digitsToNat ip)
  | '.' :: fp =>
      if fp.all Char.isDigit && !(ip.isEmpty && fp.isEmpty) then
        some ((digitsToNat ip : ℚ) + (digitsToNat fp : ℚ) / (10 : ℚ) ^ fp.length)
      else Option.none
  | _ => Option.none

/-- Strip leading and trailing whitespace, as Python's numeric string
coercions do before parsing. -/
def stripWs (cs : List Char) : List Char :=
  ((cs.dropWhile Char.isWhitespace).reverse.dropWhile Char.isWhitespace).reverse

/-- Python `float(s)` on a string: strip whitespace, optional sign,
decimal body. -/
def strToFloat (s : String) : Option ℚ :=
  match stripWs s.toList with
  | '-' :: rest => (parseDec rest).map (fun q => -q)
  | '+' :: rest => parseDec rest
  | cs => parseDec cs

/-- Python `int(s)` on a string: strip whitespace, optional sign, one or
more decimal digits (a decimal point is rejected). -/
def strToInt (s : String) : Option ℤ :=
  match stripWs s.toList with
  | '-' :: rest =>
      if !rest.isEmpty && rest.all Char.isDigit then some (-(digitsToNat rest : ℤ))
      else Option.none
  | '+' :: rest =>
      if !rest.isEmpty && rest.all Char.isDigit then some (digitsToNat rest : ℤ)
      else Option.none
  | cs =>
      if !cs.isEmpty && cs.all Char.isDigit then some (digitsToNat cs : ℤ)
      else Option.none

/-- Truncation toward zero, as Python `int(...)` applied to a float. -/
def ratTrunc (q : ℚ) : ℤ := Int.tdiv q.num (q.den : ℤ)

/-- Python `float(v)`: succeeds on numbers, booleans and numeric strings;
raises (here: `Option.none`) on `None` and collections. -/
def pyToFloat : PyVal → Option ℚ
  | .int n => some (n : ℚ)
  | .float q => some q
  | .str s => strToFloat s
  | .bool b => some (if b then 1 else 0)
  | .none => Option.none
  | .coll => Option.none

/-- Python `int(v)`: succeeds on integers and booleans, truncates floats
toward zero, parses integer strings; raises on `None` and collections. -/
def pyToInt : PyVal → Option ℤ
  | .int n => some n
  | .float q => some (ratTrunc q)
  | .str s => strToInt s
  | .bool b => some (if b then 1 else 0)
  | .none => Option.none
  | .coll => Option.none

/-- Python `str(v)`: total, never raises. -/
def pyStr : PyVal → String
  | .int n => toString n
  | .float q => toString q
  | .str s => s
  | .bool b => if b then "True" else "False"
  | .none => "None"
  | .coll => "<collection>"

/-- A JSON object body, as the Python dict the handler receives. -/
def Payload : Type := List (String × PyVal)

/-- Python `payload.get(key, default)`. -/
def fieldOr (p : Payload) (key : String) (default : PyVal) : PyVal :=
  (List.lookup key p).getD default

/-- State of the three instruments declared in `app/metrics.py`:
the `REQUESTS` counter is traced as the list of `(endpoint, method, status)`
labels of its increments, `ERRORS` as its current count, and the `LATENCY`
histogram as the list of observed durations. -/
structure Metrics where
  requests : List (String × String × String)
  errors : ℕ
  latencyObs : List ℚ
deriving DecidableEq

/-- Outcome of the `/recommend` handler: HTTP status, the `discount` field
of a success body, and the `detail` field of an `HTTPException` body. -/
structure RecResult where
  status : ℕ
  discount : Option ℚ
  detail : Option String
deriving DecidableEq

/-- The `try` block of `recommend` in `app/main.py`: coerce `total` with
`float` (default `0`), then `items` with `int` (default `1`), then `tier`
with `str` (default `"bronze"`, unused); any coercion failure, as well as
`total < 0 or items <= 0`, raises and is caught as HTTP 400 with detail
`"invalid request"`; otherwise the handler returns the placeholder body
`{"discount": 0.10}`. -/
def recommendCore (p : Payload) : RecResult :=
  match pyToFloat (fieldOr p "total" (PyVal.int 0)) with
  | Option.none => ⟨400, Option.none, some "invalid request"⟩
  | some total =>
    match pyToInt (fieldOr p "items" (PyVal.int 1)) with
    | Option.none => ⟨400, Option.none, some "invalid request"⟩
    | some items =>
      let _tier := pyStr (fieldOr p "tier" (PyVal.str "bronze"))
      if total < 0 ∨ items ≤ 0 then ⟨400, Option.none, some "invalid request"⟩
      else ⟨200, some (1/10 : ℚ), Option.none⟩

/-- The full `recommend` handler: the response of `recommendCore` together
with the `finally` block, which always observes one latency value
`t1 - t0` and increments `REQUESTS` once with labels
`("/recommend", "POST", status)`, where `status` is the string `"200"`
on success and `"400"` on the exception path. -/
def recommendHandler (met : Metrics) (t0 t1 : ℚ) (p : Payload) :
    RecResult × Metrics :=
  let res := recommendCore p
  (res,
   { requests := ("/recommend", "POST", toString res.status) :: met.requests,
     errors := met.errors,
     latencyObs := (t1 - t0) :: met.latencyObs })

/-- Outcome of the `/simulate_error` handler. -/
structure ErrResult where
  status : ℕ
  detail : String
deriving DecidableEq

/-- The `simulate_error` handler in `app/main.py`: increments `ERRORS`,
then raises `HTTPException(500, "simulated failure")`. -/
def simulate_error (met : Metrics) : ErrResult × Metrics :=
  (⟨500, "simulated failure"⟩, { met with errors := met.errors + 1 })

/-- `TIERS` from `app/model.py`. -/
def TIERS : List String := ["bronze", "silver", "gold", "platinum"]

/-- `TIER_INDEX = {t: i for i, t in enumerate(TIERS)}` from `app/model.py`,
as an association list. -/
def TIER_INDEX : List (String × ℕ) :=
  TIERS.enum.map (fun p => (p.2, p.1))

/-- `TIER_INDEX.get(str(tier).lower(), 0)` from `DiscountModel.predict`. -/
def tierOrdinal (tier : String) : ℕ :=
  (List.lookup tier.toLower TIER_INDEX).getD 0

/-- The discount model of `app/model.py`. The regression tree fitted by
scikit-learn at construction time is an external floating-point
computation and is carried abstractly as the feature function `tree`
(total, items, tier ordinal ↦ raw prediction). -/
structure DiscountModel where
  tree : ℚ → ℚ → ℚ → ℚ

/-- `DiscountModel.predict` from `app/model.py`: look up the tier ordinal
(case-insensitively, default 0), query the fitted tree on the three
features, and clip the raw prediction with `max(0.0, min(pred, 0.5))`. -/
def DiscountModel.predict (m : DiscountModel) (total : ℚ) (items : ℤ)
    (tier : String) : ℚ :=
  let ti : ℕ := tierOrdinal tier
  let pred := m.tree total (items : ℚ) (ti : ℚ)
  max 0 (min pred (1/2 : ℚ))

/-- The `recommend` handler as seen from a process that also holds the
discount model: `app/main.py` does not import `app.model` and never calls
`DiscountModel.predict`, so the model argument is ignored. -/
def recommendWith (_m : DiscountModel) (p : Payload) : RecResult :=
  recommendCore p

/-- Tier mapping written from the spec's words: case-insensitive,
bronze ↦ 0, silver ↦ 1, gold ↦ 2, platinum ↦ 3, anything else ↦ 0. -/
def specTierOrdinal (tier : String) : ℕ :=
  if tier.toLower = "bronze" then 0
  else if tier.toLower = "silver" then 1
  else if tier.toLower = "gold" then 2
  else if tier.toLower = "platinum" then 3
  else 0

/-- The coerced request is valid: both numeric coercions succeed,
the total is non-negative and the item count at least 1. -/
def coercedValid (p : Payload) : Prop :=
  ∃ total items,
    pyToFloat (fieldOr p "total" (PyVal.int 0)) = some total ∧
    pyToInt (fieldOr p "items" (PyVal.int 1)) = some items ∧
    0 ≤ total ∧ 1 ≤ items

/-- Sample model and empty metrics used by witnesses. -/
def sampleModel : DiscountModel := ⟨fun _ _ _ => 0⟩

def initMetrics : Metrics := ⟨[], 0, []⟩

theorem fieldOr_cons_self (k : String) (v d : PyVal) (p : Payload) :
    fieldOr ((k, v) :: p) k d = v := by
  simp [fieldOr, List.lookup]

theorem fieldOr_cons_other (k k' : String) (v d : PyVal) (p : Payload)
    (h : (k' == k) = false) :
    fieldOr ((k, v) :: p) k' d = fieldOr p k' d := by
  simp [fieldOr, List.lookup, h]

theorem fieldOr_of_lookup_none (k : String) (d : PyVal) (p : Payload)
    (h : List.lookup k p = Option.none) :
    fieldOr p k d = d := by
  simp [fieldOr, h]

/-- The handler's response is always exactly one of the two literal
outcomes: the 400 error body or the 200 placeholder body. -/
theorem recommendCore_eq_or (p : Payload) :
    recommendCore p = ⟨400, Option.none, some "invalid request"⟩ ∨
    recommendCore p = ⟨200, some (1/10 : ℚ), Option.none⟩ := by
  unfold recommendCore
  cases pyToFloat (fieldOr p "total" (PyVal.int 0)) with
  | none => exact Or.inl rfl
  | some total =>
    cases pyToInt (fieldOr p "items" (PyVal.int 1)) with
    | none => exact Or.inl rfl
    | some items =>
      by_cases h : total < 0 ∨ items ≤ 0
      · simp only [h, if_true]
        exact Or.inl trivial
      · simp only [h, if_false]
        exact Or.inr trivial

/-- C1: for every request body whose coerced values satisfy `total ≥ 0` and
`items ≥ 1`, the `/recommend` handler returns HTTP 200 with body
`{"discount": 0.10}` — the fixed constant — and never invokes
`DiscountModel.predict`: the response is the same whatever the process's
model is (`main.py` does not even import `app.model`). -/
theorem spec_C1 (p : Payload) (total : ℚ) (items : ℤ)
    (hf : pyToFloat (fieldOr p "total" (PyVal.int 0)) = some total)
    (hi : pyToInt (fieldOr p "items" (PyVal.int 1)) = some items)
    (h0 : 0 ≤ total) (h1 : 1 ≤ items) :
    recommendCore p = ⟨200, some (1/10 : ℚ), Option.none⟩ ∧
    ∀ m₁ m₂ : DiscountModel, recommendWith m₁ p = recommendWith m₂ p := by
  refine ⟨?_, fun _ _ => rfl⟩
  unfold recommendCore
  rw [hf, hi]
  have h : ¬(total < 0 ∨ items ≤ 0) := by
    push_neg
    exact ⟨h0, by omega⟩
  simp only [h, if_false]

theorem spec_C1_witness :
    recommendCore [("total", PyVal.float 5), ("items", PyVal.int 2)] =
      ⟨200, some (1/10 : ℚ), Option.none⟩ :=
  (spec_C1 [("total", PyVal.float 5), ("items", PyVal.int 2)] 5 2 rfl rfl
    (by norm_num) (by norm_num)).1

/-- C2: the `/recommend` handler fails, with status 400 and detail
`"invalid request"`, exactly when numeric coercion of `total` or `items`
fails, or the coerced `total` is negative, or the coerced `items` is not
positive; on every other body it succeeds with the 200 response. -/
theorem spec_C2 (p : Payload) :
    (recommendCore p = ⟨400, Option.none, some "invalid request"⟩ ↔
      ¬ coercedValid p) ∧
    (coercedValid p → recommendCore p = ⟨200, some (1/10 : ℚ), Option.none⟩) := by
  have hmain : recommendCore p = ⟨400, Option.none, some "invalid request"⟩ ↔
      ¬ coercedValid p := by
    unfold recommendCore coercedValid
    cases hf : pyToFloat (fieldOr p "total" (PyVal.int 0)) with
    | none => simp [hf]
    | some total =>
      cases hi : pyToInt (fieldOr p "items" (PyVal.int 1)) with
      | none => simp [hi]
      | some items =>
        by_cases h : total < 0 ∨ items ≤ 0
        · simp only [h, if_true]
          constructor
          · rintro - ⟨t, i, ht, hit, h0, h1⟩
            obtain rfl := Option.some.inj ht
            obtain rfl := Option.some.inj hit
            rcases h with h | h
            · exact absurd h0 (not_le.mpr h)
            · omega
          · intro hnv
            trivial
        · simp only [h, if_false]
          constructor
          · intro hbad
            exact absurd (congrArg RecResult.status hbad) (by norm_num)
          · intro hnv
            push_neg at h
            exact absurd ⟨total, items, rfl, rfl, h.1, by omega⟩ hnv
  refine ⟨hmain, fun hv => ?_⟩
  rcases recommendCore_eq_or p with h | h
  · exact absurd (hmain.mp h) (not_not.mpr hv)
  · exact h

theorem spec_C2_witness :
    coercedValid [("total", PyVal.float 220), ("items", PyVal.int 5),
      ("tier", PyVal.str "silver")] ∧
    recommendCore [("total", PyVal.float 220), ("items", PyVal.int 5),
      ("tier", PyVal.str "silver")] = ⟨200, some (1/10 : ℚ), Option.none⟩ := by
  have hv : coercedValid [("total", PyVal.float 220), ("items", PyVal.int 5),
      ("tier", PyVal.str "silver")] :=
    ⟨220, 5, rfl, rfl, by norm_num, by norm_num⟩
  exact ⟨hv, (spec_C2 _).2 hv⟩

/-- C3: for every input, `DiscountModel.predict` returns a value in the
closed interval `[0, 0.5]`: the raw tree prediction is clipped by
`max(0.0, min(pred, 0.5))` before being returned, whatever the fitted
tree computes. -/
theorem spec_C3 (m : DiscountModel) (total : ℚ) (items : ℤ) (tier : String) :
    0 ≤ m.predict total items tier ∧ m.predict total items tier ≤ 1/2 := by
  unfold DiscountModel.predict
  exact ⟨le_max_left 0 _, max_le (by norm_num) (min_le_right _ _)⟩

/-- C5: every call to `/simulate_error` fails with status 500 and detail
`"simulated failure"`, and its side effect on the metrics state is exactly
one increment of the error counter (the other instruments are untouched);
the increment happens even though the request then fails. -/
theorem spec_C5 (met : Metrics) :
    (simulate_error met).1 = ⟨500, "simulated failure"⟩ ∧
    (simulate_error met).2.errors = met.errors + 1 ∧
    (simulate_error met).2.requests = met.requests ∧
    (simulate_error met).2.latencyObs = met.latencyObs :=
  ⟨rfl, rfl, rfl, rfl⟩

/-- C6: every call to `/recommend` — whether it ends in the 200 or the 400
outcome — records exactly one latency observation and prepends exactly one
increment of the request counter labeled
`("/recommend", "POST", final status)`, the `finally` block of the source
being modelled as the unconditional metrics update of `recommendHandler`. -/
theorem spec_C6 (met : Metrics) (t0 t1 : ℚ) (p : Payload) :
    (recommendHandler met t0 t1 p).2.latencyObs = (t1 - t0) :: met.latencyObs ∧
    (recommendHandler met t0 t1 p).2.requests =
      ("/recommend", "POST", toString (recommendHandler met t0 t1 p).1.status)
        :: met.requests ∧
    ((recommendHandler met t0 t1 p).1.status = 200 ∨
      (recommendHandler met t0 t1 p).1.status = 400) := by
  refine ⟨rfl, rfl, ?_⟩
  show (recommendCore p).status = 200 ∨ (recommendCore p).status = 400
  rcases recommendCore_eq_or p with h | h
  · exact Or.inr (by rw [h])
  · exact Or.inl (by rw [h])

/-- C7: the tier lookup used by `DiscountModel.predict` maps a tier string
case-insensitively to an ordinal in 0–3 with bronze = 0, silver = 1,
gold = 2, platinum = 3, and every other string to ordinal 0; that is, it
agrees everywhere with the mapping written from the spec's words. -/
theorem spec_C7 (tier : String) :
    tierOrdinal tier = specTierOrdinal tier ∧ tierOrdinal tier ≤ 3 := by
  have hT : TIER_INDEX =
      [("bronze", 0), ("silver", 1), ("gold", 2), ("platinum", 3)] := by decide
  have hmain : tierOrdinal tier = specTierOrdinal tier := by
    unfold tierOrdinal specTierOrdinal
    rw [hT]
    by_cases hb : tier.toLower = "bronze"
    · simp [List.lookup, hb]
    · by_cases hs : tier.toLower = "silver"
      · simp [List.lookup, hb, hs]
      · by_cases hg : tier.toLower = "gold"
        · simp [List.lookup, hb, hs, hg]
        · by_cases hp : tier.toLower = "platinum"
          · simp [List.lookup, hb, hs, hg, hp]
          · have hb' : (tier.toLower == "bronze") = false :=
              beq_eq_false_iff_ne.mpr hb
            have hs' : (tier.toLower == "silver") = false :=
              beq_eq_false_iff_ne.mpr hs
            have hg' : (tier.toLower == "gold") = false :=
              beq_eq_false_iff_ne.mpr hg
            have hp' : (tier.toLower == "platinum") = false :=
              beq_eq_false_iff_ne.mpr hp
            simp [List.lookup, hb', hs', hg', hp', hb, hs, hg, hp]
  refine ⟨hmain, ?_⟩
  rw [hmain]
  unfold specTierOrdinal
  by_cases hb : tier.toLower = "bronze" <;>
    by_cases hs : tier.toLower = "silver" <;>
      by_cases hg : tier.toLower = "gold" <;>
        by_cases hp : tier.toLower = "platinum" <;>
          simp [hb, hs, hg, hp]

/-- C8: an absent field is replaced by its default — `total = 0`,
`items = 1`, `tier = "bronze"` — in the sense that the handler behaves
exactly as if the default value were present in the body; in particular a
request with the empty JSON object body passes validation and succeeds
with HTTP 200 and the placeholder discount. -/
theorem spec_C8 :
    (∀ (met : Metrics) (t0 t1 : ℚ) (p : Payload),
      List.lookup "total" p = Option.none →
      recommendHandler met t0 t1 p =
        recommendHandler met t0 t1 (("total", PyVal.int 0) :: p)) ∧
    (∀ (met : Metrics) (t0 t1 : ℚ) (p : Payload),
      List.lookup "items" p = Option.none →
      recommendHandler met t0 t1 p =
        recommendHandler met t0 t1 (("items", PyVal.int 1) :: p)) ∧
    (∀ (met : Metrics) (t0 t1 : ℚ) (p : Payload),
      List.lookup "tier" p = Option.none →
      recommendHandler met t0 t1 p =
        recommendHandler met t0 t1 (("tier", PyVal.str "bronze") :: p)) ∧
    (∀ (met : Metrics) (t0 t1 : ℚ),
      (recommendHandler met t0 t1 ([] : Payload)).1 =
        ⟨200, some (1/10 : ℚ), Option.none⟩) := by
  have hstep : ∀ (met : Metrics) (t0 t1 : ℚ) (p p' : Payload),
      recommendCore p = recommendCore p' →
      recommendHandler met t0 t1 p = recommendHandler met t0 t1 p' := by
    intro met t0 t1 p p' h
    unfold recommendHandler
    rw [h]
  refine ⟨?_, ?_, ?_, ?_⟩
  · intro met t0 t1 p h
    refine hstep met t0 t1 _ _ ?_
    unfold recommendCore
    rw [fieldOr_of_lookup_none "total" (PyVal.int 0) p h,
      fieldOr_cons_self "total" (PyVal.int 0) (PyVal.int 0) p,
      fieldOr_cons_other "total" "items" (PyVal.int 0) (PyVal.int 1) p (by decide),
      fieldOr_cons_other "total" "tier" (PyVal.int 0) (PyVal.str "bronze") p
        (by decide)]
  · intro met t0 t1 p h
    refine hstep met t0 t1 _ _ ?_
    unfold recommendCore
    rw [fieldOr_of_lookup_none "items" (PyVal.int 1) p h,
      fieldOr_cons_self "items" (PyVal.int 1) (PyVal.int 1) p,
      fieldOr_cons_other "items" "total" (PyVal.int 1) (PyVal.int 0) p (by decide),
      fieldOr_cons_other "items" "tier" (PyVal.int 1) (PyVal.str "bronze") p
        (by decide)]
  · intro met t0 t1 p h
    refine hstep met t0 t1 _ _ ?_
    unfold recommendCore
    rw [fieldOr_of_lookup_none "tier" (PyVal.str "bronze") p h,
      fieldOr_cons_self "tier" (PyVal.str "bronze") (PyVal.str "bronze") p,
      fieldOr_cons_other "tier" "total" (PyVal.str "bronze") (PyVal.int 0) p
        (by decide),
      fieldOr_cons_other "tier" "items" (PyVal.str "bronze") (PyVal.int 1) p
        (by decide)]
  · intro met t0 t1
    show recommendCore [] = ⟨200, some (1/10 : ℚ), Option.none⟩
    simp +decide [recommendCore, fieldOr, List.lookup, pyToFloat, pyToInt]

theorem spec_C8_witness :
    recommendHandler initMetrics 0 0 ([] : Payload) =
      recommendHandler initMetrics 0 0 [("total", PyVal.int 0)] ∧
    (recommendHandler initMetrics 0 0 ([] : Payload)).1 =
      ⟨200, some (1/10 : ℚ), Option.none⟩ :=
  ⟨spec_C8.1 initMetrics 0 0 [] rfl, spec_C8.2.2.2 initMetrics 0 0⟩

/-- C9: `/recommend` is deterministic — the response to a given body is the
same whatever the ambient state: the metrics state, the wall-clock
readings, and the process's model do not influence it, and a repeated call
with the identical body (from the state the first call produced) yields
the identical response. -/
theorem spec_C9 (m₁ m₂ : DiscountModel) (met₁ met₂ : Metrics)
    (t0 t1 t0' t1' : ℚ) (p : Payload) :
    (recommendHandler met₁ t0 t1 p).1 = (recommendHandler met₂ t0' t1' p).1 ∧
    (recommendHandler (recommendHandler met₁ t0 t1 p).2 t0' t1' p).1 =
      (recommendHandler met₁ t0 t1 p).1 ∧
    recommendWith m₁ p = recommendWith m₂ p :=
  ⟨rfl, rfl, rfl⟩

/-- C10: the handler coerces `items` with Python `int(...)`, so a
non-integer numeric `items` is silently truncated toward zero rather than
rejected: `{"items": 2.9}` is accepted as `items = 2` and yields 200,
while `{"items": 0.9}` truncates to 0 and is rejected with 400. -/
theorem spec_C10 :
    pyToInt (PyVal.float (29/10)) = some 2 ∧
    recommendCore [("items", PyVal.float (29/10))] =
      ⟨200, some (1/10 : ℚ), Option.none⟩ ∧
    pyToInt (PyVal.float (9/10)) = some 0 ∧
    recommendCore [("items", PyVal.float (9/10))] =
      ⟨400, Option.none, some "invalid request"⟩ := by
  refine ⟨?_, ?_, ?_, ?_⟩
  · show some (ratTrunc (29/10)) = some 2
    norm_num [ratTrunc]
    decide
  · simp +decide [recommendCore, fieldOr, List.lookup, pyToFloat, pyToInt]
    norm_num [ratTrunc]
    decide
  · show some (ratTrunc (9/10)) = some 0
    norm_num [ratTrunc]
    decide
  · simp +decide [recommendCore, fieldOr, List.lookup, pyToFloat, pyToInt]
    norm_num [ratTrunc]
    decide
